import Mathlib

/-!
# Verification of the Lookout Gallery thumbnail engine

Shallow embedding of `custom_components/lookout_gallery/thumbnail.py`
(class `ThumbnailGenerator`) and `const.py`, together with proofs that
settle the specification claims about the engine.

Modelling conventions:
* The filesystem is a function `FS : String → Option Nat` mapping a path to
  `some mtime` when the path exists and `none` otherwise (only existence and
  modification times are observed by the code under verification).
* Directory trees handed to `os.walk` are modelled by the inductive `Dir`.
* Subprocess interactions (the ffmpeg probe and the two render calls) are
  modelled by explicit outcome values supplied to the embedded functions;
  the embedded functions additionally report, as data, which external calls
  they performed, so that "no subprocess was attempted" is a provable
  statement.
* Python strings are modelled by Lean `String` (in this toolchain a `String`
  wraps a `List Char`, matching Python's sequence-of-code-points view);
  the few Python string/path primitives the code uses (`str.replace`,
  `str.startswith`, `in` (substring), `pathlib.Path.stem/suffix/parent`,
  path joining) are given explicit executable definitions below.
-/

set_option maxRecDepth 8000

namespace LookoutGallery

/-! ## Character-list string primitives (Python semantics) -/

/-- Python `needle in haystack` (substring containment) on strings. -/
def substrB (needle hay : String) : Bool :=
  hay.toList.tails.any fun t => needle.toList.isPrefixOf t

/-- Python `s.startswith(pre)`. -/
def startsWithB (s pre : String) : Bool :=
  pre.toList.isPrefixOf s.toList

/-- Python `s.replace(pat, "")` on char lists: every non-overlapping
occurrence of `pat`, found left to right, is deleted.  The `fuel`
argument (instantiated with the list length, which bounds the number of
steps) makes the recursion structural so that the kernel can evaluate
the function. -/
def replaceOccAux (pat : List Char) : Nat → List Char → List Char
  | 0, l => l
  | _, [] => []
  | fuel + 1, c :: rest =>
    if pat ≠ [] ∧ pat.isPrefixOf (c :: rest) then
      replaceOccAux pat fuel (rest.drop (pat.length - 1))
    else
      c :: replaceOccAux pat fuel rest

/-- Python `s.replace(pat, "")` on char lists. -/
def replaceOcc (pat l : List Char) : List Char :=
  replaceOccAux pat l.length l

/-- Python `s.replace(pat, "")` on strings. -/
def replaceEmpty (s pat : String) : String :=
  String.mk (replaceOcc pat.toList s.toList)

/-- Python `str.lower()` on one character (ASCII range; the extension
strings this code compares against are all ASCII). -/
def lowerChar (c : Char) : Char :=
  if 65 ≤ c.toNat ∧ c.toNat ≤ 90 then Char.ofNat (c.toNat + 32) else c

/-- Python `s.lower()`. -/
def lowerStr (s : String) : String :=
  String.mk (s.toList.map lowerChar)

/-- Python `s[:n]` (take the first `n` characters). -/
def takeStr (s : String) (n : Nat) : String :=
  String.mk (s.toList.take n)

/-- Python `s[n:]` (drop the first `n` characters). -/
def dropStr (s : String) (n : Nat) : String :=
  String.mk (s.toList.drop n)

/-! ## POSIX path model (the fragment of `pathlib` / `os.path` used) -/

/-- Split a character list at every `'/'`. Always returns a non-empty list. -/
def splitSlash : List Char → List (List Char)
  | [] => [[]]
  | c :: rest =>
    match splitSlash rest with
    | [] => [[]]
    | g :: gs => if c = '/' then [] :: g :: gs else (c :: g) :: gs

/-- Non-empty path components of a path string. -/
def pathComps (p : String) : List (List Char) :=
  (splitSlash p.toList).filter (· ≠ [])

/-- Embeds `pathlib.Path(p).name`: the final (non-empty) path component. -/
def fileName (p : String) : String :=
  String.mk ((pathComps p).getLast?.getD [])

/-- Embeds `str(pathlib.Path(p).parent)`: the path with its final component
removed; `"."` for a single relative component, `"/"` below the root. -/
def parentDir (p : String) : String :=
  let isAbs := p.toList.head? = some '/'
  match (pathComps p).dropLast with
  | [] => if isAbs then "/" else "."
  | cs => (if isAbs then "/" else "") ++
      String.mk (cs.intersperse ['/']).flatten

/-- Embeds `pathlib.Path(base) / child` and `os.path.join(base, child)` for the
shapes of input this code produces: an absolute `child` wins, otherwise the
two sides are joined with a single `'/'`. -/
def pathJoin (base child : String) : String :=
  if child = "" then base
  else if child.toList.head? = some '/' then child
  else if base = "" ∨ base = "." then child
  else if base.toList.getLast? = some '/' then base ++ child
  else base ++ "/" ++ child

/-- Index (from the front) of the last `'.'` in a character list. -/
def lastDotIndex (cs : List Char) : Option Nat :=
  match cs.reverse.findIdx? (· = '.') with
  | none => none
  | some j => some (cs.length - 1 - j)

/-- Embeds `pathlib.PurePath(name).suffix` of a bare file name: the substring from
the last dot, unless that dot is the first or the last character. -/
def fileSuffix (name : String) : String :=
  let cs := name.toList
  match lastDotIndex cs with
  | none => ""
  | some i => if 0 < i ∧ i < cs.length - 1 then String.mk (cs.drop i) else ""

/-- Embeds `pathlib.PurePath(name).stem` of a bare file name. -/
def fileStem (name : String) : String :=
  let cs := name.toList
  match lastDotIndex cs with
  | none => name
  | some i => if 0 < i ∧ i < cs.length - 1 then String.mk (cs.take i) else name

/-! ## MD5 (RFC 1321), as used by `hashlib.md5(path.encode()).hexdigest()`

Machine words are `Nat` values kept below `2^32` by explicit `% 2^32`. -/

/-- The word modulus `2^32`. -/
def M32 : Nat := 4294967296

/-- Bitwise NOT on a 32-bit word represented as a `Nat` below `2^32`. -/
def wnot (x : Nat) : Nat := (M32 - 1) - x % M32

/-- Rotate a 32-bit word left by `s` (for `x < 2^32`, `0 < s < 32`). -/
def rotl32 (x s : Nat) : Nat := (x * 2 ^ s + x / 2 ^ (32 - s)) % M32

/-- The 64 MD5 sine-table constants `K[i] = floor(2^32 * |sin(i+1)|)`. -/
def md5K : List Nat :=
  [0xd76aa478, 0xe8c7b756, 0x242070db, 0xc1bdceee,
   0xf57c0faf, 0x4787c62a, 0xa8304613, 0xfd469501,
   0x698098d8, 0x8b44f7af, 0xffff5bb1, 0x895cd7be,
   0x6b901122, 0xfd987193, 0xa679438e, 0x49b40821,
   0xf61e2562, 0xc040b340, 0x265e5a51, 0xe9b6c7aa,
   0xd62f105d, 0x02441453, 0xd8a1e681, 0xe7d3fbc8,
   0x21e1cde6, 0xc33707d6, 0xf4d50d87, 0x455a14ed,
   0xa9e3e905, 0xfcefa3f8, 0x676f02d9, 0x8d2a4c8a,
   0xfffa3942, 0x8771f681, 0x6d9d6122, 0xfde5380c,
   0xa4beea44, 0x4bdecfa9, 0xf6bb4b60, 0xbebfbc70,
   0x289b7ec6, 0xeaa127fa, 0xd4ef3085, 0x04881d05,
   0xd9d4d039, 0xe6db99e5, 0x1fa27cf8, 0xc4ac5665,
   0xf4292244, 0x432aff97, 0xab9423a7, 0xfc93a039,
   0x655b59c3, 0x8f0ccc92, 0xffeff47d, 0x85845dd1,
   0x6fa87e4f, 0xfe2ce6e0, 0xa3014314, 0x4e0811a1,
   0xf7537e82, 0xbd3af235, 0x2ad7d2bb, 0xeb86d391]

/-- The 64 MD5 per-round left-rotation amounts. -/
def md5S : List Nat :=
  [7, 12, 17, 22, 7, 12, 17, 22, 7, 12, 17, 22, 7, 12, 17, 22,
   5, 9, 14, 20, 5, 9, 14, 20, 5, 9, 14, 20, 5, 9, 14, 20,
   4, 11, 16, 23, 4, 11, 16, 23, 4, 11, 16, 23, 4, 11, 16, 23,
   6, 10, 15, 21, 6, 10, 15, 21, 6, 10, 15, 21, 6, 10, 15, 21]

/-- Little-endian 32-bit words from a byte list (16 words per block). -/
def toWords : List Nat → List Nat
  | b0 :: b1 :: b2 :: b3 :: rest =>
      (b0 + 256 * b1 + 65536 * b2 + 16777216 * b3) :: toWords rest
  | _ => []

/-- One MD5 round (round index `i`, message words `Mw`). -/
def md5Round (Mw : List Nat) (st : Nat × Nat × Nat × Nat) (i : Nat) :
    Nat × Nat × Nat × Nat :=
  let a := st.1
  let b := st.2.1
  let c := st.2.2.1
  let d := st.2.2.2
  let fg : Nat × Nat :=
    if i < 16 then ((b &&& c) ||| (wnot b &&& d), i)
    else if i < 32 then ((d &&& b) ||| (wnot d &&& c), (5 * i + 1) % 16)
    else if i < 48 then (b ^^^ c ^^^ d, (3 * i + 5) % 16)
    else (c ^^^ (b ||| wnot d), (7 * i) % 16)
  let f := (fg.1 + a + md5K.getD i 0 + Mw.getD fg.2 0) % M32
  (d, (b + rotl32 f (md5S.getD i 0)) % M32, b, c)

/-- Process one padded 64-byte block. -/
def md5Block (st : Nat × Nat × Nat × Nat) (block : List Nat) :
    Nat × Nat × Nat × Nat :=
  let Mw := toWords block
  let r := (List.range 64).foldl (md5Round Mw) st
  ((st.1 + r.1) % M32, (st.2.1 + r.2.1) % M32,
   (st.2.2.1 + r.2.2.1) % M32, (st.2.2.2 + r.2.2.2) % M32)

/-- The low 8 bytes of `n`, little-endian. -/
def leBytes8 (n : Nat) : List Nat :=
  [n % 256, n / 256 % 256, n / 65536 % 256, n / 16777216 % 256,
   n / 4294967296 % 256, n / 1099511627776 % 256,
   n / 281474976710656 % 256, n / 72057594037927936 % 256]

/-- The low 4 bytes of `n`, little-endian. -/
def leBytes4 (n : Nat) : List Nat :=
  [n % 256, n / 256 % 256, n / 65536 % 256, n / 16777216 % 256]

/-- MD5 padding: `0x80`, zeros to 56 mod 64, then the 64-bit bit length. -/
def md5Pad (msg : List Nat) : List Nat :=
  msg ++ [128] ++ List.replicate ((119 - msg.length % 64) % 64) 0
      ++ leBytes8 (8 * msg.length)

/-- Split a list into chunks of 64 (structural recursion on a fuel
bound so that the kernel can evaluate it). -/
def chunks64Aux : Nat → List Nat → List (List Nat)
  | 0, _ => []
  | _, [] => []
  | fuel + 1, l => l.take 64 :: chunks64Aux fuel (l.drop 64)

/-- Split a list into chunks of 64. -/
def chunks64 (l : List Nat) : List (List Nat) :=
  chunks64Aux l.length l

/-- The 16-byte MD5 digest of a byte list. -/
def md5Digest (msg : List Nat) : List Nat :=
  let r := (chunks64 (md5Pad msg)).foldl md5Block
      (0x67452301, 0xefcdab89, 0x98badcfe, 0x10325476)
  leBytes4 r.1 ++ leBytes4 r.2.1 ++ leBytes4 r.2.2.1 ++ leBytes4 r.2.2.2

/-- UTF-8 encoding of one code point (Python `str.encode()`). -/
def utf8Bytes (c : Nat) : List Nat :=
  if c < 128 then [c]
  else if c < 2048 then [192 + c / 64, 128 + c % 64]
  else if c < 65536 then
    [224 + c / 4096, 128 + c / 64 % 64, 128 + c % 64]
  else
    [240 + c / 262144, 128 + c / 4096 % 64, 128 + c / 64 % 64, 128 + c % 64]

/-- Embeds `s.encode()`: UTF-8 bytes of a string. -/
def strBytes (s : String) : List Nat :=
  (s.toList.map fun ch => utf8Bytes ch.toNat).flatten

/-- One lowercase hex digit. -/
def hexChar (n : Nat) : Char :=
  if n < 10 then Char.ofNat (48 + n) else Char.ofNat (87 + n)

/-- Two lowercase hex digits of a byte, high nibble first. -/
def byteHex (b : Nat) : List Char := [hexChar (b / 16), hexChar (b % 16)]

/-- Embeds `hashlib.md5(s.encode()).hexdigest()`: the 32-character lowercase hex
digest of a string. -/
def md5hex (s : String) : String :=
  String.mk ((md5Digest (strBytes s)).map byteHex).flatten

/-! ## Constants from `const.py` -/

/-- The set `VIDEO_EXTENSIONS` (const.py line 24). -/
def VIDEO_EXTENSIONS : List String :=
  [".mp4", ".mkv", ".avi", ".mov", ".webm", ".m4v", ".ts"]

/-- The set `IMAGE_EXTENSIONS` (const.py line 25). -/
def IMAGE_EXTENSIONS : List String :=
  [".jpg", ".jpeg", ".png", ".gif", ".webp"]

/-! ## Engine state and environment -/

/-- The filesystem as observed by the code: `some mtime` when a path
exists, `none` when it does not. -/
def FS : Type := String → Option Nat

/-- The configuration fields of `ThumbnailGenerator` that the verified
operations read (established in `__init__`, immutable afterwards). -/
structure Config where
  media_paths : List String
  width : Nat
  height : Nat
  quality : Nat
  thumbnail_folder : String

/-- Embeds `_get_thumbnail_path` (thumbnail.py lines 74-84): sibling cache
directory `parent / thumbnail_folder`, file name
`stem + "_" + md5(path)[:8] + ".jpg"`. -/
def getThumbnailPath (folder media_path : String) : String :=
  let path_hash := takeStr (md5hex media_path) 8
  let thumb_name := fileStem (fileName media_path) ++ "_" ++ path_hash ++ ".jpg"
  let thumb_dir := pathJoin (parentDir media_path) folder
  pathJoin thumb_dir thumb_name

/-- Embeds `_is_video` (lines 86-88): `Path(path).suffix.lower() in VIDEO_EXTENSIONS`. -/
def isVideoPath (p : String) : Bool :=
  lowerStr (fileSuffix (fileName p)) ∈ VIDEO_EXTENSIONS

/-- Embeds `_is_image` (lines 90-92). -/
def isImagePath (p : String) : Bool :=
  lowerStr (fileSuffix (fileName p)) ∈ IMAGE_EXTENSIONS

/-! ## PathResolver: `_resolve_media_path` (lines 131-156) -/

/-- The virtual media-source namespace marker tested on line 134. -/
def msrcNS : String := "media-source://media_source/"

/-- The loop over `self.media_paths` (lines 148-151): the first configured
root under which the relative path exists. -/
def firstExisting (fs : FS) (rel : String) : List String → Option String
  | [] => none
  | r :: rs =>
    let cand := pathJoin r rel
    if (fs cand).isSome then some cand else firstExisting fs rel rs

/-- Embeds `_resolve_media_path` (lines 131-156), translated clause by clause:
the structured-URI branch strips the namespace marker with
`str.replace(ns, "")` (all occurrences) and an optional leading
`"local/"`, then tries `/media` and each configured root; the other
branch returns a literal path when it exists; otherwise `None`. -/
def resolveMediaPath (roots : List String) (fs : FS) (id : String) :
    Option String :=
  if startsWithB id msrcNS then
    let rel0 := replaceEmpty id msrcNS
    let rel := if startsWithB rel0 "local/" then dropStr rel0 6 else rel0
    let full := pathJoin "/media" rel
    if (fs full).isSome then some full
    else firstExisting fs rel roots
  else if (fs id).isSome then some id
  else none

/-! ## MemoizedLookup: `async_get_thumbnail` (lines 94-129)

Render calls are abstracted by a success oracle
`renderOk : String → Bool` (the boolean the awaited
`_generate_*_thumbnail` call returns for that source path); the list of
source paths for which a render was attempted is returned as data. -/

/-- The outcome of one `async_get_thumbnail` call. -/
structure LookRes where
  result : Option String
  cache : List (String × String)
  attempts : List String
deriving Repr, DecidableEq

/-- Membership lookup in the `self._cache` dict (insertion shadows). -/
def cacheLookup : List (String × String) → String → Option String
  | [], _ => none
  | (k, v) :: rest, m => if k = m then some v else cacheLookup rest m

/-- Lines 102-129 of `async_get_thumbnail`: everything after the
memoized fast path (resolution, freshness check, generation). -/
def lookupFull (cfg : Config) (fs : FS) (renderOk : String → Bool)
    (cache : List (String × String)) (media_path : String) : LookRes :=
  match resolveMediaPath cfg.media_paths fs media_path with
  | none => ⟨none, cache, []⟩
  | some actual =>
    match fs actual with
    | none => ⟨none, cache, []⟩
    | some actualM =>
      let thumb := getThumbnailPath cfg.thumbnail_folder actual
      -- lines 110-114: `if thumb_path.exists()` then the mtime comparison
      let freshHit : Bool :=
        match fs thumb with
        | none => false
        | some thumbM => actualM ≤ thumbM
      if freshHit then ⟨some thumb, (media_path, thumb) :: cache, []⟩
      else if isVideoPath actual then
        if renderOk actual then
          ⟨some thumb, (media_path, thumb) :: cache, [actual]⟩
        else ⟨none, cache, [actual]⟩
      else if isImagePath actual then
        if renderOk actual then
          ⟨some thumb, (media_path, thumb) :: cache, [actual]⟩
        else ⟨none, cache, [actual]⟩
      else ⟨none, cache, []⟩

/-- Embeds `async_get_thumbnail` (lines 94-129): the memoized fast path
(lines 97-100), falling through to `lookupFull` when the mapping misses
or the mapped file no longer exists. -/
def asyncGetThumbnail (cfg : Config) (fs : FS) (renderOk : String → Bool)
    (cache : List (String × String)) (media_path : String) : LookRes :=
  match cacheLookup cache media_path with
  | some t =>
    if (fs t).isSome then ⟨some t, cache, []⟩
    else lookupFull cfg fs renderOk cache media_path
  | none => lookupFull cfg fs renderOk cache media_path

/-! ## Renderer: `async_check_ffmpeg` (lines 51-72) and
`_generate_video_thumbnail` / `_generate_image_thumbnail` (158-233) -/

/-- Outcome of the `ffmpeg -version` probe subprocess: either the process
ran and returned an exit code, or the executable was missing
(`FileNotFoundError`). -/
inductive ProbeResult where
  | ran (rc : Int)
  | notFound
deriving Repr, DecidableEq

/-- Outcome of one ffmpeg render subprocess: it exited with a code (and
did or did not leave the destination file behind), or the 30s/15s
`wait_for` budget elapsed, or an exception was raised. -/
inductive ProcResult where
  | exited (rc : Int) (destWritten : Bool)
  | timedOut
  | raised
deriving Repr, DecidableEq

/-- Whether a render subprocess outcome left the destination file on
disk. -/
def destPresent : ProcResult → Bool
  | .exited _ dw => dw
  | _ => false

/-- Embeds `async_check_ffmpeg` (lines 51-72) as a state transformer on
`self._ffmpeg_available`: returns (result, new state, probe-invoked?).
When the cached state is set it is returned without running the probe;
otherwise the probe runs once and the boolean outcome is stored. -/
def asyncCheckFfmpeg (st : Option Bool) (probe : ProbeResult) :
    Bool × Option Bool × Bool :=
  match st with
  | some b => (b, some b, false)
  | none =>
    match probe with
    | .ran rc => (decide (rc = 0), some (decide (rc = 0)), true)
    | .notFound => (false, some false, true)

/-- Outcome of one `_generate_*_thumbnail` call: the returned boolean,
the updated availability state, and whether the probe subprocess and the
render subprocess were invoked. -/
structure RenderRes where
  success : Bool
  state : Option Bool
  probeInvoked : Bool
  renderInvoked : Bool
deriving Repr, DecidableEq

/-- Embeds `_generate_video_thumbnail` (lines 158-196): probe first and bail out
on unavailability; otherwise run ffmpeg and report `returncode == 0`;
timeout and exceptions are caught and reported as `False`. -/
def generateVideoThumbnail (st : Option Bool) (probe : ProbeResult)
    (proc : ProcResult) : RenderRes :=
  let chk := asyncCheckFfmpeg st probe
  if !chk.1 then ⟨false, chk.2.1, chk.2.2, false⟩
  else
    match proc with
    | .exited rc _ => ⟨decide (rc = 0), chk.2.1, chk.2.2, true⟩
    | .timedOut => ⟨false, chk.2.1, chk.2.2, true⟩
    | .raised => ⟨false, chk.2.1, chk.2.2, true⟩

/-- Embeds `_generate_image_thumbnail` (lines 198-233): identical decision
structure to the video renderer (only the command and the 15s budget
differ). -/
def generateImageThumbnail (st : Option Bool) (probe : ProbeResult)
    (proc : ProcResult) : RenderRes :=
  let chk := asyncCheckFfmpeg st probe
  if !chk.1 then ⟨false, chk.2.1, chk.2.2, false⟩
  else
    match proc with
    | .exited rc _ => ⟨decide (rc = 0), chk.2.1, chk.2.2, true⟩
    | .timedOut => ⟨false, chk.2.1, chk.2.2, true⟩
    | .raised => ⟨false, chk.2.1, chk.2.2, true⟩

/-! ## The ffmpeg command lines (lines 166-175 and 206-213)

`int((100 - self.quality) / 3.33)` is Python float division truncated
toward zero.  For `quality ≤ 100` the operand is non-negative, so the
truncation is a floor, and the exact value is `100*(100-quality)/333`.
Over the configured range 10-100 the float computation agrees with the
exact rational one: the exact quotients stay at least `1/333 ≈ 0.003`
away from every integer (and `0.5/333` away from every half-integer),
far beyond the `≈ 1e-15` rounding error of the float evaluation. -/

/-- The `-q:v` value `int((100 - quality) / 3.33)` (lines 173 and 211). -/
def qv (quality : Nat) : Nat := 100 * (100 - quality) / 333

/-- The `-vf` filter string (lines 172 and 210). -/
def scalePadFilter (w h : Nat) : String :=
  "scale=" ++ toString w ++ ":" ++ toString h ++
  ":force_original_aspect_ratio=decrease,pad=" ++ toString w ++ ":" ++
  toString h ++ ":(ow-iw)/2:(oh-ih)/2"

/-- The video ffmpeg argument list (lines 166-175); `fp` is
`str(self.frame_position)`. -/
def videoCmd (w h q : Nat) (fp src dst : String) : List String :=
  ["ffmpeg", "-y", "-ss", fp, "-i", src, "-vframes", "1",
   "-vf", scalePadFilter w h, "-q:v", toString (qv q), dst]

/-- The image ffmpeg argument list (lines 206-213). -/
def imageCmd (w h q : Nat) (src dst : String) : List String :=
  ["ffmpeg", "-y", "-i", src, "-vf", scalePadFilter w h,
   "-q:v", toString (qv q), dst]

/-! ## ScanOrchestrator: `async_generate_all_thumbnails` (lines 235-280) -/

/-- The `stats` dict (line 237). -/
structure Stats where
  scanned : Nat
  generated : Nat
  skipped : Nat
  failed : Nat
deriving Repr, DecidableEq

/-- A directory: regular files by name, and named subdirectories. -/
inductive Dir where
  | node : List String → List (String × Dir) → Dir

mutual

/-- Embeds `os.walk(base)` over a modelled tree: top-down, the root before its
subtrees, root paths built by joining. -/
def walk (base : String) : Dir → List (String × List String)
  | .node files subdirs => (base, files) :: walkList base subdirs

/-- Embeds `os.walk` over a list of named subdirectories. -/
def walkList (base : String) : List (String × Dir) → List (String × List String)
  | [] => []
  | (name, d) :: rest => walk (pathJoin base name) d ++ walkList base rest

end

/-- Source mtime read `Path(file_path).stat().st_mtime` (line 261); files
listed by `os.walk` exist, so the default is never meaningful. -/
def mtimeD (fs : FS) (p : String) : Nat := (fs p).getD 0

/-- The body of the inner `for filename in files` loop
(lines 250-275): extension filtering, the scanned counter, the freshness
check of lines 260-263, and the dispatch to the renderers, with attempted
source paths recorded as data. -/
def scanFile (folder : String) (fs : FS) (renderOk : String → Bool)
    (root : String) (filename : String) (acc : Stats × List String) :
    Stats × List String :=
  let file_path := pathJoin root filename
  let ext := lowerStr (fileSuffix filename)
  if ¬ (ext ∈ VIDEO_EXTENSIONS ∨ ext ∈ IMAGE_EXTENSIONS) then acc
  else
    let st := { acc.1 with scanned := acc.1.scanned + 1 }
    let thumb := getThumbnailPath folder file_path
    -- lines 260-263: `if thumb_path.exists()` then the mtime comparison
    let freshHit : Bool :=
      match fs thumb with
      | none => false
      | some thumbM => mtimeD fs file_path ≤ thumbM
    if freshHit then ({ st with skipped := st.skipped + 1 }, acc.2)
    else if renderOk file_path then
      ({ st with generated := st.generated + 1 }, acc.2 ++ [file_path])
    else
      ({ st with failed := st.failed + 1 }, acc.2 ++ [file_path])

/-- One `for root, _, files in os.walk(...)` iteration (lines 246-275):
the whole entry is skipped when `self.thumbnail_folder in root`
(substring test, line 247). -/
def scanEntry (folder : String) (fs : FS) (renderOk : String → Bool)
    (entry : String × List String) (acc : Stats × List String) :
    Stats × List String :=
  if substrB folder entry.1 then acc
  else entry.2.foldl (fun a f => scanFile folder fs renderOk entry.1 f a) acc

/-- Embeds `async_generate_all_thumbnails` (lines 235-280); `disk` maps a root
path to its directory tree when `os.path.exists` holds for it; missing
roots are skipped with a warning (lines 242-244). -/
def generateAllThumbnails (cfg : Config) (disk : String → Option Dir)
    (fs : FS) (renderOk : String → Bool) (pathArg : Option String) :
    Stats × List String :=
  let paths_to_scan := match pathArg with
    | some p => [p]
    | none => cfg.media_paths
  paths_to_scan.foldl
    (fun acc base =>
      match disk base with
      | none => acc
      | some d =>
        (walk base d).foldl
          (fun a e => scanEntry cfg.thumbnail_folder fs renderOk e a) acc)
    (⟨0, 0, 0, 0⟩, [])

/-! ## Specification-side definitions -/

/-- Spec-side `isFresh`, as the specification states it: true iff the cache file
exists and its modification time is not earlier than the source file
modification time. -/
def isFresh (fs : FS) (cachePath : String) (srcMtime : Nat) : Bool :=
  match fs cachePath with
  | none => false
  | some thumbM => srcMtime ≤ thumbM

/-- Modelled from the spec claim wording for C5: the namespace marker is
stripped as a leading segment exactly once (rather than with
`str.replace`, which removes every occurrence). -/
def stripNSOnce (id : String) : String :=
  let rel0 := dropStr id msrcNS.length
  if startsWithB rel0 "local/" then dropStr rel0 6 else rel0

/-- The stripping `_resolve_media_path` actually performs (lines
135-138): delete every occurrence of the namespace marker, then one
leading `"local/"`. -/
def stripNSAll (id : String) : String :=
  let rel0 := replaceEmpty id msrcNS
  if startsWithB rel0 "local/" then dropStr rel0 6 else rel0

/-- Spec-side `cachePathFor`, as the specification states it: parent directory plus
the configured cache-subdirectory name, file name = base name without
extension, `"_"`, the first 8 hex characters of the MD5 digest of the
full source path, and `".jpg"`. -/
def cachePathForSpec (folder sourcePath : String) : String :=
  pathJoin (pathJoin (parentDir sourcePath) folder)
    (fileStem (fileName sourcePath) ++ "_" ++ takeStr (md5hex sourcePath) 8 ++ ".jpg")

/-- The extension test of the scan loop (lines 252-254), as a predicate
on a bare file name. -/
def isMediaName (filename : String) : Bool :=
  let ext := lowerStr (fileSuffix filename)
  ext ∈ VIDEO_EXTENSIONS ∨ ext ∈ IMAGE_EXTENSIONS

/-- Holds when `folder` occurs as a whole path component of `root`. -/
def IsPathComponent (folder root : String) : Prop :=
  folder.toList ∈ splitSlash root.toList

/-- The invariant of one `stats` value: every scanned file was counted in
exactly one of the three outcome counters. -/
def StatsInv (s : Stats) : Prop :=
  s.scanned = s.generated + s.skipped + s.failed

/-! ## Concrete fixtures used by witnesses and counterexamples -/

/-- Fixture configuration for the C1 witness. -/
def c1Cfg : Config := ⟨[], 320, 180, 70, ".t"⟩

/-- Fixture thumbnail path for the C1 witness (lookup side). -/
def c1Thumb : String := getThumbnailPath ".t" "/v.mp4"

/-- Fixture filesystem for the C1 witness (lookup side): the source and a
fresh cache file exist. -/
def c1Fs : FS := fun p =>
  if p = "/v.mp4" then some 5 else if p = c1Thumb then some 9 else none

/-- Fixture thumbnail path for the C1 witness (scan side). -/
def c1ScanThumb : String := getThumbnailPath ".th" "/m2/clip.mp4"

/-- Fixture filesystem for the C1 witness (scan side): source and cache
with equal modification times, exercising the `>=` boundary. -/
def c1ScanFs : FS := fun p =>
  if p = "/m2/clip.mp4" then some 7
  else if p = c1ScanThumb then some 7 else none

/-- Fixture for C3: thumbnail path of the one video file. -/
def c3Thumb : String := getThumbnailPath ".thumbnails" "/m/video.mp4"

/-- Fixture for C3: one video file plus its pre-existing cache
subdirectory containing the corresponding thumbnail. -/
def c3Disk : String → Option Dir := fun p =>
  if p = "/m" then
    some (.node ["video.mp4"] [(".thumbnails", .node [fileName c3Thumb] [])])
  else none

/-- Fixture for C3: the video and its fresh thumbnail exist on disk. -/
def c3Fs : FS := fun p =>
  if p = "/m/video.mp4" then some 10
  else if p = c3Thumb then some 20 else none

/-- Fixture configuration for C3. -/
def c3Cfg : Config := ⟨["/m"], 320, 180, 70, ".thumbnails"⟩

/-- Fixture identifier for the C5 counterexample: a structured URI whose
payload itself contains the namespace marker a second time. -/
def c5Id : String := msrcNS ++ msrcNS ++ "x"

/-- Fixture filesystem for the C5 counterexample: only `/media/x`
exists. -/
def c5Fs : FS := fun p => if p = "/media/x" then some 0 else none

/-- Fixture filesystem for the C5 witness. -/
def c5WFs : FS := fun p => if p = "/media/a.mp4" then some 1 else none

/-- Fixture filesystem for the C8 witness: the memoized thumbnail file
exists (its source file does not even exist, showing that the fast path
consults no source mtime). -/
def c8Fs : FS := fun p => if p = "/t1.jpg" then some 3 else none

/-- Fixture tree for C9: two media files and two non-media files in one
directory. -/
def c9Disk : String → Option Dir := fun p =>
  if p = "/d" then
    some (.node ["movie.mp4", "photo.png", "notes.txt", "archive.zip"] [])
  else none

/-- Fixture filesystem for C9: both media files exist, no thumbnails. -/
def c9Fs : FS := fun p =>
  if p = "/d/movie.mp4" ∨ p = "/d/photo.png" then some 5 else none

/-! ## Helper lemmas -/

/-- The first group produced by `splitSlash` is always defined and forms
a leading segment of the input. -/
theorem splitSlash_head_pre (cs : List Char) :
    ∃ g gs, splitSlash cs = g :: gs ∧ g <+: cs := by
  induction cs with
  | nil => exact ⟨[], [], rfl, List.nil_prefix⟩
  | cons c rest ih =>
    obtain ⟨g, gs, hs, hp⟩ := ih
    by_cases hc : c = '/'
    · exact ⟨[], g :: gs, by simp [splitSlash, hs, hc], List.nil_prefix⟩
    · obtain ⟨t, ht⟩ := hp
      exact ⟨c :: g, gs, by simp [splitSlash, hs, hc], ⟨t, by simp [ht]⟩⟩

/-- Every group produced by `splitSlash` is a contiguous segment of the
input. -/
theorem mem_splitSlash_factor (cs : List Char) (l : List Char)
    (h : l ∈ splitSlash cs) : l <:+: cs := by
  induction cs generalizing l with
  | nil =>
    simp only [splitSlash, List.mem_singleton] at h
    simp [h]
  | cons c rest ih =>
    obtain ⟨g, gs, hs, hp⟩ := splitSlash_head_pre rest
    by_cases hc : c = '/'
    · rw [show splitSlash (c :: rest) = [] :: g :: gs by
        simp [splitSlash, hs, hc]] at h
      rcases List.mem_cons.mp h with h | h
      · simp [h]
      · have hmem : l ∈ splitSlash rest := by rw [hs]; exact h
        exact List.infix_cons (ih l hmem)
    · rw [show splitSlash (c :: rest) = (c :: g) :: gs by
        simp [splitSlash, hs, hc]] at h
      rcases List.mem_cons.mp h with h | h
      · subst h
        obtain ⟨t, ht⟩ := hp
        exact ⟨[], t, by simp [ht]⟩
      · have hmem : l ∈ splitSlash rest := by
          rw [hs]; exact List.mem_cons_of_mem _ h
        exact List.infix_cons (ih l hmem)

/-- A list is a Boolean-level leading segment of itself followed by
anything. -/
theorem isPrefixOf_append_self (l t : List Char) :
    l.isPrefixOf (l ++ t) = true := by
  induction l with
  | nil => simp [List.isPrefixOf]
  | cons a l ih => simp [List.isPrefixOf, ih]

/-- Factor occurrence implies the Python substring test succeeds. -/
theorem substrB_of_factor {needle hay : String}
    (h : needle.toList <:+: hay.toList) : substrB needle hay = true := by
  obtain ⟨s, t, hst⟩ := h
  unfold substrB
  rw [List.any_eq_true]
  refine ⟨needle.toList ++ t, ?_, ?_⟩
  · rw [List.mem_tails]
    exact ⟨s, by rw [← List.append_assoc]; exact hst⟩
  · exact isPrefixOf_append_self _ _

/-- Path-component occurrence implies the `in`-test of line 247
succeeds. -/
theorem substrB_of_component {folder root : String}
    (h : IsPathComponent folder root) : substrB folder root = true :=
  substrB_of_factor (mem_splitSlash_factor _ _ h)

/-- One scan-loop iteration preserves the counter invariant. -/
theorem scanFile_statsInv (folder : String) (fs : FS)
    (renderOk : String → Bool) (root filename : String)
    (acc : Stats × List String) (h : StatsInv acc.1) :
    StatsInv (scanFile folder fs renderOk root filename acc).1 := by
  obtain ⟨⟨sc, ge, sk, fa⟩, lst⟩ := acc
  simp only [StatsInv] at h ⊢
  simp only [scanFile]
  split
  · exact h
  · split
    · dsimp only; omega
    · split <;> (dsimp only; omega)

/-- Folding the scan over a file list preserves the counter invariant. -/
theorem foldl_scanFile_statsInv (folder : String) (fs : FS)
    (renderOk : String → Bool) (root : String) (files : List String)
    (acc : Stats × List String) (h : StatsInv acc.1) :
    StatsInv ((files.foldl
      (fun a f => scanFile folder fs renderOk root f a) acc)).1 := by
  induction files generalizing acc with
  | nil => exact h
  | cons f rest ih =>
    rw [List.foldl_cons]
    exact ih _ (scanFile_statsInv _ _ _ _ _ _ h)

/-- One walk entry preserves the counter invariant. -/
theorem scanEntry_statsInv (folder : String) (fs : FS)
    (renderOk : String → Bool) (entry : String × List String)
    (acc : Stats × List String) (h : StatsInv acc.1) :
    StatsInv (scanEntry folder fs renderOk entry acc).1 := by
  unfold scanEntry
  split
  · exact h
  · exact foldl_scanFile_statsInv _ _ _ _ _ _ h

/-- Folding over walk entries preserves the counter invariant. -/
theorem foldl_scanEntry_statsInv (folder : String) (fs : FS)
    (renderOk : String → Bool) (entries : List (String × List String))
    (acc : Stats × List String) (h : StatsInv acc.1) :
    StatsInv ((entries.foldl
      (fun a e => scanEntry folder fs renderOk e a) acc)).1 := by
  induction entries generalizing acc with
  | nil => exact h
  | cons e rest ih =>
    rw [List.foldl_cons]
    exact ih _ (scanEntry_statsInv _ _ _ _ _ h)

/-- Folding over scan roots preserves the counter invariant. -/
theorem foldl_roots_statsInv (folder : String) (disk : String → Option Dir)
    (fs : FS) (renderOk : String → Bool) (roots : List String)
    (acc : Stats × List String) (h : StatsInv acc.1) :
    StatsInv ((roots.foldl
      (fun acc base =>
        match disk base with
        | none => acc
        | some d =>
          (walk base d).foldl
            (fun a e => scanEntry folder fs renderOk e a) acc) acc)).1 := by
  induction roots generalizing acc with
  | nil => exact h
  | cons r rest ih =>
    rw [List.foldl_cons]
    apply ih
    cases disk r with
    | none => exact h
    | some d => exact foldl_scanEntry_statsInv _ _ _ _ _ h

/-! ## Claim theorems -/

/-- C2: for every source path and cache-subdirectory name, the derived
cache path equals the specification formula: the parent directory joined
with the cache-subdirectory name, with file name = base name without
extension + `"_"` + the first 8 hex characters of the MD5 digest of the
full source path string + `".jpg"`.  Determinism within a process and
across restarts holds because `getThumbnailPath` is a pure function of
the two strings alone (no other state enters the computation).  The
concrete conjunct pins the digest itself: `92ffaf44` is the externally
computed MD5 prefix of `/media/test.mp4`. -/
theorem c2_cache_path_derivation :
    (∀ folder sourcePath : String,
      getThumbnailPath folder sourcePath = cachePathForSpec folder sourcePath) ∧
    getThumbnailPath ".thumbnails" "/media/test.mp4" =
      "/media/.thumbnails/test_92ffaf44.jpg" :=
  ⟨fun _ _ => rfl, by decide⟩

/-- C3: during a bulk scan, every walk entry whose root path contains the
configured cache-subdirectory name as a path component is skipped
entirely — its files change no counter and trigger no render (line 247
tests substring containment, which path-component containment implies);
consequently the concrete tree holding exactly one video file plus its
pre-existing fresh cache subdirectory reports `scanned = 1`. -/
theorem c3_cache_subtree_skipped :
    (∀ (folder : String) (fs : FS) (renderOk : String → Bool)
        (root : String) (files : List String) (acc : Stats × List String),
      IsPathComponent folder root →
      scanEntry folder fs renderOk (root, files) acc = acc) ∧
    generateAllThumbnails c3Cfg c3Disk c3Fs (fun _ => true) none =
      (⟨1, 0, 1, 0⟩, []) := by
  constructor
  · intro folder fs renderOk root files acc h
    simp [scanEntry, substrB_of_component h]
  · decide

/-- Witness for C3: the general part applied to a concrete walk entry
rooted at `/m/.thumbnails`, whose path has `.thumbnails` as a path
component. -/
theorem c3_witness :
    scanEntry ".thumbnails" c3Fs (fun _ => true)
      ("/m/.thumbnails", ["x.mp4"]) (⟨0, 0, 0, 0⟩, []) =
      (⟨0, 0, 0, 0⟩, []) :=
  c3_cache_subtree_skipped.1 ".thumbnails" c3Fs (fun _ => true)
    "/m/.thumbnails" ["x.mp4"] (⟨0, 0, 0, 0⟩, [])
    (by unfold IsPathComponent; decide)

/-- C9: the scanned counter moves exactly on files whose lower-cased
extension is in the recognized video or image set — by exactly one — and
a non-matching file leaves the whole accumulator untouched; the concrete
directory `movie.mp4, photo.png, notes.txt, archive.zip` yields
`scanned = 2` (both media files rendered, nothing skipped or failed). -/
theorem c9_extension_filter :
    (∀ (folder : String) (fs : FS) (renderOk : String → Bool)
        (root filename : String) (acc : Stats × List String),
      ((scanFile folder fs renderOk root filename acc).1.scanned =
        acc.1.scanned + (if isMediaName filename then 1 else 0)) ∧
      (isMediaName filename = false →
        scanFile folder fs renderOk root filename acc = acc)) ∧
    (generateAllThumbnails ⟨["/d"], 320, 180, 70, ".thumbnails"⟩ c9Disk c9Fs
        (fun _ => true) none).1 = ⟨2, 2, 0, 0⟩ := by
  constructor
  · intro folder fs renderOk root filename acc
    cases hm : isMediaName filename with
    | false =>
      have hm2 := hm
      simp only [isMediaName, decide_eq_false_iff_not] at hm2
      constructor
      · simp [scanFile, hm2]
      · intro _; simp [scanFile, hm2]
    | true =>
      have hm2 := hm
      simp only [isMediaName, decide_eq_true_eq] at hm2
      constructor
      · simp only [scanFile, hm2, not_true_eq_false, if_false]
        split
        · rfl
        · split <;> rfl
      · intro hfalse
        simp at hfalse
  · decide

/-- Witness for C9: the non-matching clause applied to `notes.txt`. -/
theorem c9_witness :
    scanFile ".thumbnails" (fun _ => none) (fun _ => true) "/d" "notes.txt"
      (⟨0, 0, 0, 0⟩, []) = (⟨0, 0, 0, 0⟩, []) :=
  (c9_extension_filter.1 ".thumbnails" (fun _ => none) (fun _ => true)
    "/d" "notes.txt" (⟨0, 0, 0, 0⟩, [])).2 (by decide)

/-- C10: every bulk scan starts its statistics from zero and returns them
satisfying `scanned = generated + skipped + failed`: each scanned file
increments exactly one of the three outcome counters. -/
theorem c10_stats_partition (cfg : Config) (disk : String → Option Dir)
    (fs : FS) (renderOk : String → Bool) (pathArg : Option String) :
    (generateAllThumbnails cfg disk fs renderOk pathArg).1.scanned =
      (generateAllThumbnails cfg disk fs renderOk pathArg).1.generated +
      (generateAllThumbnails cfg disk fs renderOk pathArg).1.skipped +
      (generateAllThumbnails cfg disk fs renderOk pathArg).1.failed := by
  have h : StatsInv (generateAllThumbnails cfg disk fs renderOk pathArg).1 := by
    unfold generateAllThumbnails
    exact foldl_roots_statsInv cfg.thumbnail_folder disk fs renderOk _ _ rfl
  exact h

/-- C1: the freshness decision is `isFresh` — fresh iff the cache file
exists and its mtime is `≥` the source mtime — in both entry points.  In
the single-item lookup (after resolution succeeded on an existing
source): a fresh cache entry is returned with no render attempted, and a
missing-or-older one leads to a render attempt on the resolved media
file.  In the bulk scan: a fresh entry increments `skipped` and nothing
else, and a stale one produces a render attempt for the file. -/
theorem c1_freshness_decision :
    (∀ (cfg : Config) (fs : FS) (renderOk : String → Bool)
        (cache : List (String × String)) (mp actual : String) (actualM : Nat),
      resolveMediaPath cfg.media_paths fs mp = some actual →
      fs actual = some actualM →
      ((isFresh fs (getThumbnailPath cfg.thumbnail_folder actual) actualM = true →
          lookupFull cfg fs renderOk cache mp =
            ⟨some (getThumbnailPath cfg.thumbnail_folder actual),
             (mp, getThumbnailPath cfg.thumbnail_folder actual) :: cache, []⟩) ∧
       (isFresh fs (getThumbnailPath cfg.thumbnail_folder actual) actualM = false →
          (isVideoPath actual = true ∨ isImagePath actual = true) →
          (lookupFull cfg fs renderOk cache mp).attempts = [actual]))) ∧
    (∀ (folder : String) (fs : FS) (renderOk : String → Bool)
        (root filename : String) (acc : Stats × List String) (srcM : Nat),
      isMediaName filename = true →
      fs (pathJoin root filename) = some srcM →
      ((isFresh fs (getThumbnailPath folder (pathJoin root filename)) srcM = true →
          scanFile folder fs renderOk root filename acc =
            ({ acc.1 with scanned := acc.1.scanned + 1,
                          skipped := acc.1.skipped + 1 }, acc.2)) ∧
       (isFresh fs (getThumbnailPath folder (pathJoin root filename)) srcM = false →
          (scanFile folder fs renderOk root filename acc).2 =
            acc.2 ++ [pathJoin root filename]))) := by
  constructor
  · intro cfg fs renderOk cache mp actual actualM hres hact
    simp only [lookupFull, hres, hact]
    constructor
    · intro hf
      simp only [isFresh] at hf
      simp [hf]
    · intro hf hmedia
      simp only [isFresh] at hf
      simp only [hf, Bool.false_eq_true, if_false]
      rcases hmedia with hv | hi
      · simp only [hv, if_true]
        cases hr : renderOk actual <;> simp [hr]
      · cases hv : isVideoPath actual
        · simp only [hv, Bool.false_eq_true, if_false, hi, if_true]
          cases hr : renderOk actual <;> simp [hr]
        · simp only [hv, if_true]
          cases hr : renderOk actual <;> simp [hr]
  · intro folder fs renderOk root filename acc srcM hm hsrc
    have hm2 := hm
    simp only [isMediaName, decide_eq_true_eq] at hm2
    constructor
    · intro hf
      simp only [isFresh] at hf
      simp only [scanFile, hm2, not_true_eq_false, if_false, mtimeD, hsrc,
        Option.getD_some, hf]
      rfl
    · intro hf
      simp only [isFresh] at hf
      simp only [scanFile, hm2, not_true_eq_false, if_false, mtimeD, hsrc,
        Option.getD_some, hf, Bool.false_eq_true, if_false]
      cases hr : renderOk (pathJoin root filename) <;> simp [hr]

/-- Witness for C1: the lookup side on a literal existing source with a
strictly newer cache file, and the scan side on a source whose cache
file has an equal mtime (the `≥` boundary), which counts as skipped. -/
theorem c1_witness :
    lookupFull c1Cfg c1Fs (fun _ => true) [] "/v.mp4" =
      ⟨some c1Thumb, [("/v.mp4", c1Thumb)], []⟩ ∧
    scanFile ".th" c1ScanFs (fun _ => true) "/m2" "clip.mp4"
      (⟨0, 0, 0, 0⟩, []) = (⟨1, 0, 1, 0⟩, []) := by
  constructor
  · exact (c1_freshness_decision.1 c1Cfg c1Fs (fun _ => true) [] "/v.mp4"
      "/v.mp4" 5 (by decide) (by decide)).1 (by decide)
  · exact (c1_freshness_decision.2 ".th" c1ScanFs (fun _ => true) "/m2"
      "clip.mp4" (⟨0, 0, 0, 0⟩, []) 7 (by decide) (by decide)).1 (by decide)

/-- C5 (amended): for every identifier, (a) a non-URI identifier resolves
to itself exactly when it exists on disk and to NotFound otherwise, with
no exception possible (the embedding is a total function into `Option`);
(b) a structured media-source identifier is rewritten by deleting every
occurrence of the namespace marker (Python `str.replace`) — not only the
leading one — plus one optional leading `local/` segment, and the result
is tried against `/media` first and then each configured root in order,
returning the first candidate that exists. -/
theorem c5_resolution (roots : List String) (fs : FS) (id : String) :
    (startsWithB id msrcNS = false →
      resolveMediaPath roots fs id =
        if (fs id).isSome then some id else none) ∧
    (startsWithB id msrcNS = true →
      resolveMediaPath roots fs id =
        firstExisting fs (stripNSAll id) ("/media" :: roots)) := by
  constructor
  · intro h
    simp [resolveMediaPath, h]
  · intro h
    simp only [resolveMediaPath, h, if_true, firstExisting, stripNSAll,
      replaceEmpty]

/-- Counterexample for C5: an identifier containing the namespace marker
twice.  The code deletes both occurrences and resolves to `/media/x`,
while the claimed strip-the-leading-marker procedure would find no
existing candidate and report NotFound. -/
theorem c5_counterexample :
    resolveMediaPath [] c5Fs c5Id = some "/media/x" ∧
    (c5Fs (pathJoin "/media" (stripNSOnce c5Id))).isSome = false ∧
    firstExisting c5Fs (stripNSOnce c5Id) ["/media"] = none ∧
    stripNSOnce c5Id ≠ stripNSAll c5Id := by
  refine ⟨by decide, by decide, by decide, by decide⟩

/-- Witness for C5: the URI clause applied to a `local/`-qualified
identifier over one configured root. -/
theorem c5_witness :
    resolveMediaPath ["/alt"] c5WFs "media-source://media_source/local/a.mp4" =
      firstExisting c5WFs
        (stripNSAll "media-source://media_source/local/a.mp4")
        ("/media" :: ["/alt"]) :=
  (c5_resolution ["/alt"] c5WFs "media-source://media_source/local/a.mp4").2
    (by decide)

/-- C8: when the in-process mapping holds the identifier and the mapped
file still exists, the lookup returns the mapped path at once — the
statement holds for every filesystem assignment of source mtimes (no
freshness re-check) and reports an empty render-attempt list; when the
mapped file no longer exists, the lookup falls through to the full
resolution path. -/
theorem c8_memoized_fast_path (cfg : Config) (fs : FS)
    (renderOk : String → Bool) (cache : List (String × String))
    (mp t : String) (h : cacheLookup cache mp = some t) :
    ((fs t).isSome = true →
      asyncGetThumbnail cfg fs renderOk cache mp = ⟨some t, cache, []⟩) ∧
    (fs t = none →
      asyncGetThumbnail cfg fs renderOk cache mp =
        lookupFull cfg fs renderOk cache mp) := by
  constructor
  · intro he
    simp [asyncGetThumbnail, h, he]
  · intro he
    simp [asyncGetThumbnail, h, he]

/-- Witness for C8: a memoized identifier whose mapped file exists (while
no source file exists at all, so no freshness information was even
available to consult). -/
theorem c8_witness :
    asyncGetThumbnail ⟨[], 320, 180, 70, ".thumbnails"⟩ c8Fs (fun _ => true)
      [("id1", "/t1.jpg")] "id1" = ⟨some "/t1.jpg", [("id1", "/t1.jpg")], []⟩ :=
  (c8_memoized_fast_path ⟨[], 320, 180, 70, ".thumbnails"⟩ c8Fs
    (fun _ => true) [("id1", "/t1.jpg")] "id1" "/t1.jpg" (by decide)).1
    (by decide)

/-- C4 (amended): for every quality in 10-100, the `-q:v` argument passed
to ffmpeg by both command builders is `int((100 - quality) / 3.33)`, the
truncation (floor, as the operand is non-negative) of the exact quotient
`(100 - quality) * 100 / 333` — not its rounding to nearest, which
differs at quality 97. -/
theorem c4_quality_mapping (w h q : Nat) (fp src dst : String)
    (h1 : 10 ≤ q) (h2 : q ≤ 100) :
    (videoCmd w h q fp src dst).getD 11 "" = toString (qv q) ∧
    (imageCmd w h q src dst).getD 7 "" = toString (qv q) ∧
    (qv q : ℤ) = ⌊(((100 : ℚ) - q) * 100) / 333⌋ := by
  refine ⟨rfl, rfl, ?_⟩
  interval_cases q <;> norm_num [qv, Int.floor_eq_iff]

/-- Counterexample for C4: at quality 97 the exact quotient is
`300/333 ≈ 0.901`, whose rounding is 1, but both command builders pass
`"0"` — the code truncates with `int(...)` instead of rounding. -/
theorem c4_counterexample :
    (videoCmd 320 180 97 "0.5" "/s.mp4" "/t.jpg").getD 11 "" = "0" ∧
    (imageCmd 320 180 97 "/s.png" "/t.jpg").getD 7 "" = "0" ∧
    round (((100 : ℚ) - 97) / (333 / 100)) = 1 := by
  refine ⟨by decide, by decide, by norm_num [round_eq]⟩

/-- Witness for C4: the amended mapping at quality 50 (where the `-q:v`
argument is `"15"`, the floor of `5000/333 ≈ 15.01`). -/
theorem c4_witness :
    (videoCmd 320 180 50 "0.5" "/s.mp4" "/t.jpg").getD 11 "" =
      toString (qv 50) ∧
    (imageCmd 320 180 50 "/s.png" "/t.jpg").getD 7 "" = toString (qv 50) ∧
    (qv 50 : ℤ) = ⌊(((100 : ℚ) - (50 : ℕ)) * 100) / 333⌋ :=
  c4_quality_mapping 320 180 50 "0.5" "/s.mp4" "/t.jpg"
    (by decide) (by decide)

/-- C6: the probe runs the external tool at most once per process — a
set availability state is returned as-is with no probe invocation, and
any first call sets the state — and whenever the probe reports
unavailable, both render entry points return failure with the render
subprocess never invoked. -/
theorem c6_probe_memoized_short_circuit :
    (∀ (b : Bool) (probe : ProbeResult),
      asyncCheckFfmpeg (some b) probe = (b, some b, false)) ∧
    (∀ probe : ProbeResult, (asyncCheckFfmpeg none probe).2.1 ≠ none) ∧
    (∀ (st : Option Bool) (probe : ProbeResult) (proc : ProcResult),
      (asyncCheckFfmpeg st probe).1 = false →
      generateVideoThumbnail st probe proc =
        ⟨false, (asyncCheckFfmpeg st probe).2.1,
         (asyncCheckFfmpeg st probe).2.2, false⟩ ∧
      generateImageThumbnail st probe proc =
        ⟨false, (asyncCheckFfmpeg st probe).2.1,
         (asyncCheckFfmpeg st probe).2.2, false⟩) := by
  refine ⟨fun b probe => rfl, ?_, ?_⟩
  · intro probe
    cases probe <;> simp [asyncCheckFfmpeg]
  · intro st probe proc h
    constructor
    · simp [generateVideoThumbnail, h]
    · simp [generateImageThumbnail, h]

/-- Witness for C6: a cached-unavailable state is returned without
probing, and a video render against it performs no subprocess call. -/
theorem c6_witness :
    asyncCheckFfmpeg (some false) (.ran 0) = (false, some false, false) ∧
    generateVideoThumbnail (some false) (.ran 0) (.exited 0 true) =
      ⟨false, (asyncCheckFfmpeg (some false) (.ran 0)).2.1,
       (asyncCheckFfmpeg (some false) (.ran 0)).2.2, false⟩ :=
  ⟨c6_probe_memoized_short_circuit.1 false (.ran 0),
   (c6_probe_memoized_short_circuit.2.2 (some false) (.ran 0)
     (.exited 0 true) (by decide)).1⟩

/-- C7 (amended): each render operation reports success exactly when the
tool is available and the subprocess exits with code 0 — whether or not
the destination file was actually written (the code never checks it);
any other exit code, a timeout, or a missing tool yields `false`.  The
embedded operations are total functions into `RenderRes`, matching the
never-throws contract for these expected failure modes. -/
theorem c7_render_success (st : Option Bool) (probe : ProbeResult)
    (proc : ProcResult) :
    ((generateVideoThumbnail st probe proc).success = true ↔
      ((asyncCheckFfmpeg st probe).1 = true ∧ ∃ dw, proc = .exited 0 dw)) ∧
    ((generateImageThumbnail st probe proc).success = true ↔
      ((asyncCheckFfmpeg st probe).1 = true ∧ ∃ dw, proc = .exited 0 dw)) := by
  cases hc : (asyncCheckFfmpeg st probe).1 <;> cases proc <;>
    simp [generateVideoThumbnail, generateImageThumbnail, hc]

/-- Counterexample for C7: a subprocess that exits 0 without leaving the
destination file behind is still reported as success by both renderers,
refuting "success exactly when exit code 0 and the destination file is
present". -/
theorem c7_counterexample :
    (generateVideoThumbnail (some true) (.ran 0) (.exited 0 false)).success =
      true ∧
    (generateImageThumbnail (some true) (.ran 0) (.exited 0 false)).success =
      true ∧
    destPresent (.exited 0 false) = false := by
  decide

end LookoutGallery
